import Mathlib

/-!
Verification development for the e-voting cluster simulation.

The browser client is embedded from src/public/script.js. The server-side
cluster core is not part of this repository snapshot, so its operations are
modelled from the specification (sections 3, 4 and 6): nodes with leader
election, a candidate registry, a vote ledger, and the snapshot builder.
-/

namespace EVoting

/-! ## Shared data shapes: the JSON the client reads -/

/-- Per-node information as read by the client from a snapshot: status
string, leader flag and per-candidate vote counts (field names follow the
JSON keys used in script.js). -/
structure NodeInfo where
  status : String
  is_leader : Bool
  votes : List (String × Nat)
deriving DecidableEq, Repr

/-- Snapshot JSON: the candidates object (its keys, in order; optional
because updateUI tolerates a missing field) and the nodes object as a list
of (nodeId, info) entries. -/
structure SnapshotData where
  candidates : Option (List String)
  nodes : List (String × NodeInfo)
deriving DecidableEq, Repr

/-- Body of a JSON response as read by apiCall: the data.log and data.state
fields, each possibly absent. -/
structure ApiResponse where
  log : Option (List String)
  state : Option SnapshotData
deriving DecidableEq, Repr

/-! ## The browser client (src/public/script.js) -/

namespace Client

/-- Request body shapes the client serializes with JSON.stringify. -/
inductive Body
  | nameBody (name : String)
  | voteBody (voterId candidateName : String)
  | nodeBody (node_id : String)
deriving DecidableEq, Repr

/-- An HTTP request issued through apiCall. -/
structure Request where
  endpoint : String
  method : String
  body : Option Body
deriving DecidableEq, Repr

/-- A rendered log line: its text content and CSS class. -/
structure LogLine where
  text : String
  cls : String
deriving DecidableEq, Repr

/-- Candidate panel contents: either the placeholder paragraph telling the
admin to add candidates, or one vote button per candidate name. -/
inductive CandidatePanel
  | placeholder
  | buttons (names : List String)
deriving DecidableEq, Repr

/-- One rendered entry of the node status panel. -/
structure NodeDiv where
  nodeId : String
  statusText : String
  statusColor : String
  leaderText : String
  votesText : String
deriving DecidableEq, Repr

/-- The parts of the page the script mutates: log panel, candidate list and
status container. -/
structure DOM where
  logLines : List LogLine
  candidatePanel : CandidatePanel
  statusPanel : List NodeDiv
deriving DecidableEq, Repr

/-- String.includes from JS, for the nonempty literal patterns used in
appendLog: pat occurs somewhere in s. -/
def includes (s pat : String) : Bool := (s.splitOn pat).length > 1

/-- CSS class appendLog chooses for a log line from its contents. -/
def logClass (line : String) : String :=
  if includes line "!!" || includes line "down" then "log-line text-red-400 font-bold"
  else if includes line "LEADER" then "log-line text-yellow-400"
  else "log-line text-green-400"

/-- One paragraph as appended by appendLog. -/
def renderLogLine (line : String) : LogLine :=
  { text := "> " ++ line, cls := logClass line }

/-- appendLog: returns early when the array is missing, otherwise appends
one rendered paragraph per entry. -/
def appendLog (logArray : Option (List String)) (dom : DOM) : DOM :=
  match logArray with
  | none => dom
  | some lines => { dom with logLines := dom.logLines ++ lines.map renderLogLine }

/-- Candidate list as rebuilt by updateUI: keys of state.candidates (an
absent field behaves as the empty object), placeholder when there are
none. -/
def renderCandidates (candidates : Option (List String)) : CandidatePanel :=
  let keys := candidates.getD []
  if keys.length > 0 then CandidatePanel.buttons keys else CandidatePanel.placeholder

/-- Status entry as rebuilt by updateUI for one node. -/
def renderNode (nodeId : String) (info : NodeInfo) : NodeDiv :=
  { nodeId := nodeId
    statusText := info.status
    statusColor := if info.status == "UP" then "text-green-500" else "text-red-500"
    leaderText := if info.is_leader then "LEADER" else ""
    votesText := String.intercalate ", "
      (info.votes.map fun p => p.1 ++ ": " ++ toString p.2) }

/-- updateUI: returns early when the state is missing, otherwise rebuilds
the candidate list and the status panel from it. -/
def updateUI (state : Option SnapshotData) (dom : DOM) : DOM :=
  match state with
  | none => dom
  | some s =>
    { dom with
      candidatePanel := renderCandidates s.candidates
      statusPanel := s.nodes.map fun p => renderNode p.1 p.2 }

/-- Outcome of the fetch performed inside apiCall: a rejected promise, a
non-OK HTTP status, or a parsed JSON body. -/
inductive FetchOutcome
  | rejected (msg : String)
  | httpError (status : Nat)
  | ok (data : ApiResponse)
deriving DecidableEq, Repr

/-- Result of one apiCall: the new page state plus flags recording whether
updateUI ran and whether the get-state fallback fetch was needed. -/
structure ApiCallResult where
  dom : DOM
  calledUpdateUI : Bool
  usedFallback : Bool
deriving DecidableEq, Repr

/-- The gray request-trace line apiCall writes to the log panel before
fetching. -/
def firingLine (endpoint : String) : LogLine :=
  { text := "> Firing request to " ++ endpoint ++ "...", cls := "log-line text-gray-500" }

/-- apiCall: write the trace line, then either the error path (a single
API Error log line, no UI update) or the success path (append data.log and
update the UI from data.state, falling back to a fresh get-state fetch when
that field is absent). -/
def apiCall (endpoint : String) (outcome : FetchOutcome)
    (fallbackState : SnapshotData) (dom : DOM) : ApiCallResult :=
  let dom0 : DOM := { dom with logLines := dom.logLines ++ [firingLine endpoint] }
  match outcome with
  | FetchOutcome.rejected msg =>
    { dom := appendLog (some ["API Error: " ++ msg]) dom0
      calledUpdateUI := false
      usedFallback := false }
  | FetchOutcome.httpError status =>
    { dom := appendLog (some ["API Error: HTTP error! status: " ++ toString status]) dom0
      calledUpdateUI := false
      usedFallback := false }
  | FetchOutcome.ok data =>
    let dom1 := appendLog data.log dom0
    match data.state with
    | some s =>
      { dom := updateUI (some s) dom1, calledUpdateUI := true, usedFallback := false }
    | none =>
      { dom := updateUI (some fallbackState) dom1, calledUpdateUI := true, usedFallback := true }

/-- initializeSystem posts /api/initialize (after clearing the log
panel). -/
def initializeRequest : Request :=
  { endpoint := "/api/initialize", method := "POST", body := none }

/-- addCandidate reads the name field; only a nonempty name produces a
request, and the field is cleared after sending. Returns the request, if
any, together with the new field contents. -/
def addCandidateClick (nameField : String) : Option Request × String :=
  if nameField ≠ "" then
    (some { endpoint := "/api/add-candidate", method := "POST",
            body := some (Body.nameBody nameField) }, "")
  else (none, nameField)

/-- castVote reads the voter id field; an empty id only alerts and sends
nothing. -/
def castVoteClick (voterField candidateName : String) : Option Request :=
  if voterField = "" then none
  else some { endpoint := "/api/vote", method := "POST",
              body := some (Body.voteBody voterField candidateName) }

/-- failNode posts /api/fail-node with the node id. -/
def failNodeClick (node_id : String) : Request :=
  { endpoint := "/api/fail-node", method := "POST", body := some (Body.nodeBody node_id) }

/-- The plain GET the 15-second timer repeats: apiCall with the default
method and no body. -/
def getStateRequest : Request :=
  { endpoint := "/api/get-state", method := "GET", body := none }

/-- Behavior installed by window.onload: what runs immediately and what the
interval timer repeats, with its period in milliseconds. -/
structure OnloadBehavior where
  immediate : List Request
  intervalMs : Nat
  periodic : Request
deriving DecidableEq, Repr

/-- window.onload: initializeSystem once, then a get-state sync every
15000 milliseconds. -/
def windowOnload : OnloadBehavior :=
  { immediate := [initializeRequest], intervalMs := 15000, periodic := getStateRequest }

/-- Every site in the script that invokes apiCall, with its free inputs. -/
inductive ClientCall
  | initializeSystem
  | addCandidate (nameField : String)
  | castVote (voterField candidateName : String)
  | failNode (node_id : String)
  | poll
deriving DecidableEq, Repr

/-- The request each call site issues, when it issues one. -/
def requestOf : ClientCall → Option Request
  | ClientCall.initializeSystem => some initializeRequest
  | ClientCall.addCandidate f => (addCandidateClick f).1
  | ClientCall.castVote v c => castVoteClick v c
  | ClientCall.failNode nid => some (failNodeClick nid)
  | ClientCall.poll => some getStateRequest

/-- The four endpoints whose handlers mutate cluster state. -/
def isMutatingRequest (r : Request) : Bool :=
  ["/api/initialize", "/api/add-candidate", "/api/vote", "/api/fail-node"].contains r.endpoint

/-- The request shapes the client is allowed to emit: the five endpoints of
the external interface, each with its documented input. -/
def wellFormed (r : Request) : Prop :=
  (r.endpoint = "/api/initialize" ∧ r.method = "POST" ∧ r.body = none) ∨
  (r.endpoint = "/api/add-candidate" ∧ r.method = "POST" ∧
    ∃ name, r.body = some (Body.nameBody name)) ∨
  (r.endpoint = "/api/vote" ∧ r.method = "POST" ∧
    ∃ v c, r.body = some (Body.voteBody v c)) ∨
  (r.endpoint = "/api/fail-node" ∧ r.method = "POST" ∧
    ∃ nid, r.body = some (Body.nodeBody nid)) ∨
  (r.endpoint = "/api/get-state" ∧ r.method = "GET" ∧ r.body = none)

/-- An empty page, before any rendering. -/
def emptyDom : DOM :=
  { logLines := [], candidatePanel := CandidatePanel.placeholder, statusPanel := [] }

end Client

/-! ## The cluster core, modelled from the spec (server source not in the
repository snapshot) -/

namespace Core

/-- Modelled from the spec: node liveness. -/
inductive Status
  | UP
  | DOWN
deriving DecidableEq, Repr

/-- Modelled from the spec: node role; FailureSimulator can clear a role,
modelled as none in the Node structure. -/
inductive Role
  | LEADER
  | FOLLOWER
  | CANDIDATE
deriving DecidableEq, Repr

/-- Modelled from the spec: one cluster member (identity, liveness, role,
term). -/
structure Node where
  id : String
  status : Status
  role : Option Role
  term : Nat
deriving DecidableEq, Repr

/-- Modelled from the spec: the single owned cluster state — the node
roster, the candidate registry, the append-only vote ledger and the cluster
term owned by the election coordinator. -/
structure ClusterState where
  nodes : List Node
  candidates : List String
  votes : List (String × String)
  term : Nat
deriving DecidableEq, Repr

/-- Whether a node currently holds the leader role. -/
def isLeaderNode (n : Node) : Bool := n.role == some Role.LEADER

/-- Modelled from the spec: a tally is a pure view of the ledger, the count
of accepted votes naming the candidate. -/
def tally (s : ClusterState) (c : String) : Nat :=
  (s.votes.filter fun v => v.2 == c).length

/-- Status as serialized into a snapshot. -/
def statusStr : Status → String
  | Status.UP => "UP"
  | Status.DOWN => "DOWN"

/-- Modelled from the spec: ClusterSnapshotBuilder — for each node its id,
status, leader flag and the (globally shared) per-candidate tallies, plus
the full candidate list. Pure: reads the state, never writes it. -/
def snapshotData (s : ClusterState) : SnapshotData :=
  { candidates := some s.candidates
    nodes := s.nodes.map fun n =>
      (n.id, { status := statusStr n.status
               is_leader := isLeaderNode n
               votes := s.candidates.map fun c => (c, tally s c) }) }

/-- Lexicographic strict comparison of character lists by code point. -/
def lexLt : List Char → List Char → Bool
  | [], [] => false
  | [], _ :: _ => true
  | _ :: _, [] => false
  | c :: cs, d :: ds =>
    if c.val < d.val then true
    else if d.val < c.val then false
    else lexLt cs ds

/-- Lexicographic strict comparison of strings by code point. -/
def strLt (a b : String) : Bool := lexLt a.data b.data

/-- Modelled from the spec: deterministic tie-break rule for election — the
lowest node id in lexicographic order, a fixed total order. -/
def selectLeader : List Node → Option Node
  | [] => none
  | n :: rest =>
    match selectLeader rest with
    | none => some n
    | some m => if strLt n.id m.id then some n else some m

/-- How election rewrites one node: the winner becomes LEADER at the new
term, every other UP node becomes FOLLOWER, DOWN nodes are untouched. -/
def electApply (w : Node) (newTerm : Nat) (n : Node) : Node :=
  if n.id == w.id then { n with role := some Role.LEADER, term := newTerm }
  else if n.status == Status.UP then { n with role := some Role.FOLLOWER }
  else n

/-- Modelled from the spec: ElectionCoordinator.electIfNeeded — no-op when
an UP leader exists; otherwise elect the lowest-id UP node, increment the
cluster term, set the winner to LEADER at the new term and all other UP
nodes to FOLLOWER; with no UP node the cluster stays leaderless and the
lack of quorum is logged. -/
def electIfNeeded (s : ClusterState) : ClusterState × List String :=
  if s.nodes.any (fun n => n.status == Status.UP && isLeaderNode n) then (s, [])
  else
    match selectLeader (s.nodes.filter fun n => n.status == Status.UP) with
    | none => (s, ["!! No quorum: no UP node, cluster is leaderless"])
    | some w =>
      ({ s with term := s.term + 1
                nodes := s.nodes.map (electApply w (s.term + 1)) },
       ["Node " ++ w.id ++ " elected LEADER for term " ++ toString (s.term + 1)])

/-- How failNode rewrites one node: the failed node goes DOWN and, when it
was the leader, loses its role; every other node is untouched. -/
def failApply (node_id : String) (wasLeader : Bool) (m : Node) : Node :=
  if m.id == node_id then
    { m with status := Status.DOWN, role := if wasLeader then none else m.role }
  else m

/-- The state right after node n (found under node_id) is marked DOWN,
losing its role when it was the leader. -/
def failedState (node_id : String) (n : Node) (s : ClusterState) : ClusterState :=
  { s with nodes := s.nodes.map (failApply node_id (isLeaderNode n)) }

/-- Modelled from the spec: FailureSimulator.failNode — NotFound on an
unknown id; a no-op success on an already-DOWN node; otherwise mark the
node DOWN and, when it held the leader role, clear that role and run a
re-election within the same call. -/
def failNode (node_id : String) (s : ClusterState) : ClusterState × List String :=
  match s.nodes.find? (fun n => n.id == node_id) with
  | none => (s, ["!! NotFound: no node with id " ++ node_id])
  | some n =>
    if n.status == Status.DOWN then
      (s, ["Node " ++ node_id ++ " is already down, nothing to do"])
    else if isLeaderNode n then
      ((electIfNeeded (failedState node_id n s)).1,
       ("!! Node " ++ node_id ++ " going down was the LEADER") ::
         (electIfNeeded (failedState node_id n s)).2)
    else
      (failedState node_id n s, ["!! Node " ++ node_id ++ " is going down"])

/-- Modelled from the spec: CandidateRegistry.register — append-only,
case-sensitive, Duplicate rejected. -/
def addCandidate (name : String) (s : ClusterState) : ClusterState × List String :=
  if s.candidates.contains name then
    (s, ["!! Duplicate: candidate " ++ name ++ " already registered"])
  else
    ({ s with candidates := s.candidates ++ [name] },
     ["Candidate " ++ name ++ " registered"])

/-- Modelled from the spec: VoteLedger.castVote — UnknownCandidate for an
unregistered target, DuplicateVoter when the voter already has a recorded
vote (the original is retained), otherwise append the vote to the
ledger. -/
def castVote (voterId candidateName : String) (s : ClusterState) : ClusterState × List String :=
  if ¬ s.candidates.contains candidateName then
    (s, ["!! UnknownCandidate: " ++ candidateName])
  else if s.votes.any (fun v => v.1 == voterId) then
    (s, ["!! DuplicateVoter: " ++ voterId])
  else
    ({ s with votes := s.votes ++ [(voterId, candidateName)] },
     ["Vote recorded for " ++ candidateName ++ " by voter " ++ voterId])

/-- A freshly created roster member: UP, no role, term 0. -/
def freshNode (i : String) : Node :=
  { id := i, status := Status.UP, role := none, term := 0 }

/-- The cluster right after the roster is recreated, before the first
election: every node UP with no role, nothing registered, term 0. -/
def initialState (roster : List String) : ClusterState :=
  { nodes := roster.map freshNode, candidates := [], votes := [], term := 0 }

/-- Modelled from the spec: initialize — recreate the fixed roster with
every node UP and no role, clear candidates and votes, reset the cluster
term and trigger the first election. -/
def initializeOp (roster : List String) : ClusterState × List String :=
  ((electIfNeeded (initialState roster)).1,
   ("System initialized with " ++ toString roster.length ++ " nodes") ::
     (electIfNeeded (initialState roster)).2)

/-- Modelled from the spec: getSnapshot, the only read path — pure, always
succeeds, leaves the state untouched. -/
def getSnapshot (s : ClusterState) : ClusterState × SnapshotData := (s, snapshotData s)

/-- The five external operations of the interface table. -/
inductive Command
  | initializeOp
  | addCandidate (name : String)
  | castVote (voterId candidateName : String)
  | failNode (node_id : String)
  | getState
deriving DecidableEq, Repr

/-- Whether a command mutates cluster state. -/
def Command.mutating : Command → Bool
  | Command.getState => false
  | _ => true

/-- Modelled from the spec: the synchronous boundary — every mutating
command responds with both its log and the fresh snapshot; get-state
responds with the snapshot alone. -/
def handle (roster : List String) : Command → ClusterState → ClusterState × ApiResponse
  | Command.initializeOp, _ =>
    let p := initializeOp roster
    (p.1, { log := some p.2, state := some (snapshotData p.1) })
  | Command.addCandidate name, s =>
    let p := addCandidate name s
    (p.1, { log := some p.2, state := some (snapshotData p.1) })
  | Command.castVote v c, s =>
    let p := castVote v c s
    (p.1, { log := some p.2, state := some (snapshotData p.1) })
  | Command.failNode nid, s =>
    let p := failNode nid s
    (p.1, { log := some p.2, state := some (snapshotData p.1) })
  | Command.getState, s =>
    let p := getSnapshot s
    (p.1, { log := none, state := some p.2 })

/-- State after one command. -/
def stepState (roster : List String) (c : Command) (s : ClusterState) : ClusterState :=
  (handle roster c s).1

/-- State after a command sequence. -/
def run (roster : List String) (cmds : List Command) (s : ClusterState) : ClusterState :=
  cmds.foldl (fun t c => stepState roster c t) s

/-- The pre-initialize state: no nodes, no candidates, no votes. -/
def emptyState : ClusterState := { nodes := [], candidates := [], votes := [], term := 0 }

/-- The node ids of a state, in roster order. -/
def nodeIds (s : ClusterState) : List String := s.nodes.map Node.id

/-- Number of nodes holding the leader role. -/
def leaderCount (s : ClusterState) : Nat := s.nodes.countP isLeaderNode

/-- The inductive cluster invariant: duplicate-free node ids, at most one
leader (I1) and every leader UP (I2). -/
def Inv (s : ClusterState) : Prop :=
  (nodeIds s).Nodup ∧ leaderCount s ≤ 1 ∧
  ∀ n ∈ s.nodes, isLeaderNode n = true → n.status = Status.UP

/-- Example run: one node, two registered candidates, one recorded vote by
voter v1 for Alice. -/
def voteScenario : ClusterState :=
  run ["n1"] [Command.initializeOp, Command.addCandidate "Alice",
    Command.addCandidate "Bob", Command.castVote "v1" "Alice"] emptyState

/-- Example run: two fresh nodes right after initialize (node a leads). -/
def twoNodeScenario : ClusterState :=
  run ["a", "b"] [Command.initializeOp] emptyState

end Core

end EVoting

/-! ## Helper lemmas about the core -/

namespace EVoting

namespace Core

theorem countP_map_le {f : Node → Node} {p q : Node → Bool} (l : List Node)
    (h : ∀ n ∈ l, p (f n) = true → q n = true) :
    (l.map f).countP p ≤ l.countP q := by
  rw [List.countP_map]
  exact List.countP_mono_left h

theorem countP_idmatch_le_one (l : List Node) (hids : (l.map Node.id).Nodup) (w : String) :
    l.countP (fun n => n.id == w) ≤ 1 := by
  have h1 : (l.map Node.id).countP (fun i => i == w) = l.countP (fun n => n.id == w) := by
    rw [List.countP_map]
    rfl
  rw [← h1, ← List.count_eq_countP]
  exact List.nodup_iff_count_le_one.1 hids w

theorem node_id_inj {l : List Node} (hids : (l.map Node.id).Nodup)
    {n m : Node} (hn : n ∈ l) (hm : m ∈ l) (h : n.id = m.id) : n = m :=
  List.inj_on_of_nodup_map hids hn hm h

theorem countP_two_of_mem {l : List Node} {p : Node → Bool} {a b : Node}
    (ha : a ∈ l) (hb : b ∈ l) (hab : a ≠ b) (hpa : p a = true) (hpb : p b = true) :
    2 ≤ l.countP p := by
  induction l with
  | nil => cases ha
  | cons x xs ih =>
    rcases List.mem_cons.1 ha with rfl | ha'
    · have hb' : b ∈ xs := by
        rcases List.mem_cons.1 hb with rfl | hb'
        · exact absurd rfl hab
        · exact hb'
      rw [List.countP_cons_of_pos _ _ hpa]
      have : 1 ≤ xs.countP p := List.countP_pos_iff.2 ⟨b, hb', hpb⟩
      omega
    · rcases List.mem_cons.1 hb with rfl | hb'
      · rw [List.countP_cons_of_pos _ _ hpb]
        have : 1 ≤ xs.countP p := List.countP_pos_iff.2 ⟨a, ha', hpa⟩
        omega
      · have := ih ha' hb'
        calc 2 ≤ xs.countP p := this
        _ ≤ (x :: xs).countP p := by rw [List.countP_cons]; omega

theorem unique_leader {s : ClusterState} (hcount : leaderCount s ≤ 1)
    {L m : Node} (hL : L ∈ s.nodes) (hlead : isLeaderNode L = true)
    (hm : m ∈ s.nodes) (hne : m ≠ L) : isLeaderNode m = false := by
  cases hb : isLeaderNode m with
  | false => rfl
  | true =>
    have := countP_two_of_mem hm hL hne hb hlead
    unfold leaderCount at hcount
    omega

theorem selectLeader_mem : ∀ (l : List Node) (w : Node), selectLeader l = some w → w ∈ l := by
  intro l
  induction l with
  | nil => intro w h; simp [selectLeader] at h
  | cons n rest ih =>
    intro w h
    rw [selectLeader] at h
    cases hsel : selectLeader rest with
    | none =>
      rw [hsel] at h
      cases h
      exact List.mem_cons_self n rest
    | some m =>
      rw [hsel] at h
      dsimp only at h
      by_cases hlt : strLt n.id m.id = true
      · rw [if_pos hlt] at h
        cases h
        exact List.mem_cons_self n rest
      · rw [if_neg hlt] at h
        cases h
        exact List.mem_cons_of_mem n (ih w hsel)

theorem selectLeader_isSome : ∀ (l : List Node), l ≠ [] → ∃ w, selectLeader l = some w := by
  intro l hl
  cases l with
  | nil => exact absurd rfl hl
  | cons n rest =>
    rw [selectLeader]
    cases selectLeader rest with
    | none => exact ⟨n, rfl⟩
    | some m =>
      dsimp only
      by_cases hlt : strLt n.id m.id = true
      · exact ⟨n, by rw [if_pos hlt]⟩
      · exact ⟨m, by rw [if_neg hlt]⟩

theorem electApply_id (w : Node) (t : Nat) (n : Node) : (electApply w t n).id = n.id := by
  unfold electApply
  split
  · rfl
  · split <;> rfl

theorem failApply_id (nid : String) (b : Bool) (m : Node) : (failApply nid b m).id = m.id := by
  unfold failApply
  split <;> rfl

theorem map_id_pres {f : Node → Node} (hf : ∀ n, (f n).id = n.id) (l : List Node) :
    (l.map f).map Node.id = l.map Node.id := by
  rw [List.map_map]
  exact List.map_congr_left (fun n _ => hf n)

theorem electApply_not_leader {w : Node} {t : Nat} {n : Node} (hid : (n.id == w.id) = false)
    (hn : isLeaderNode n = false) : isLeaderNode (electApply w t n) = false := by
  unfold electApply
  rw [if_neg (by simp [hid])]
  by_cases hst : (n.status == Status.UP) = true
  · rw [if_pos hst]
    simp [isLeaderNode]
  · rw [if_neg hst]
    exact hn

theorem electApply_leader_id {w : Node} {t : Nat} {n : Node}
    (h : isLeaderNode (electApply w t n) = true) (hn : isLeaderNode n = false) :
    (n.id == w.id) = true := by
  cases hid : n.id == w.id with
  | true => rfl
  | false =>
    rw [electApply_not_leader hid hn] at h
    cases h

theorem failApply_leader_imp {nid : String} {b : Bool} {m : Node}
    (h : isLeaderNode (failApply nid b m) = true) : isLeaderNode m = true := by
  unfold failApply at h
  by_cases hid : (m.id == nid) = true
  · rw [if_pos hid] at h
    cases b with
    | true => simp [isLeaderNode] at h
    | false => simpa [isLeaderNode] using h
  · rw [if_neg hid] at h
    exact h

theorem Inv_of_nodes_eq {s t : ClusterState} (h : t.nodes = s.nodes) (hs : Inv s) : Inv t := by
  obtain ⟨hids, hcount, hup⟩ := hs
  refine ⟨?_, ?_, ?_⟩
  · show (t.nodes.map Node.id).Nodup
    rw [h]
    exact hids
  · show t.nodes.countP isLeaderNode ≤ 1
    rw [h]
    exact hcount
  · show ∀ n ∈ t.nodes, isLeaderNode n = true → n.status = Status.UP
    rw [h]
    exact hup

theorem elect_inv (s : ClusterState) (h : Inv s) : Inv (electIfNeeded s).1 := by
  obtain ⟨hids, hcount, hup⟩ := h
  unfold electIfNeeded
  by_cases hL : (s.nodes.any fun n => n.status == Status.UP && isLeaderNode n) = true
  · rw [if_pos hL]
    exact ⟨hids, hcount, hup⟩
  · rw [if_neg hL]
    have hnolead : ∀ n ∈ s.nodes, isLeaderNode n = false := by
      intro n hn
      cases hb : isLeaderNode n with
      | false => rfl
      | true =>
        exfalso
        apply hL
        refine List.any_eq_true.2 ⟨n, hn, ?_⟩
        simp [hup n hn hb, hb]
    cases hsel : selectLeader (s.nodes.filter fun n => n.status == Status.UP) with
    | none => exact ⟨hids, hcount, hup⟩
    | some w =>
      dsimp only
      have hwf : w ∈ s.nodes.filter fun n => n.status == Status.UP :=
        selectLeader_mem _ _ hsel
      have hwmem : w ∈ s.nodes := (List.mem_filter.1 hwf).1
      have hwup : w.status = Status.UP := by
        have := (List.mem_filter.1 hwf).2
        simpa using this
      refine ⟨?_, ?_, ?_⟩
      · show ((s.nodes.map (electApply w (s.term + 1))).map Node.id).Nodup
        rw [map_id_pres (electApply_id w (s.term + 1))]
        exact hids
      · show (s.nodes.map (electApply w (s.term + 1))).countP isLeaderNode ≤ 1
        refine le_trans (countP_map_le s.nodes ?_) (countP_idmatch_le_one s.nodes hids w.id)
        intro n hn hlead
        exact electApply_leader_id hlead (hnolead n hn)
      · intro n' hn' hlead
        obtain ⟨n, hn, rfl⟩ := List.mem_map.1 hn'
        have hid : (n.id == w.id) = true := electApply_leader_id hlead (hnolead n hn)
        have hnw : n = w := node_id_inj hids hn hwmem (by simpa using hid)
        subst hnw
        show (electApply n (s.term + 1) n).status = Status.UP
        unfold electApply
        rw [if_pos (by simp)]
        exact hwup

theorem failedState_inv {node_id : String} {n : Node} {s : ClusterState}
    (h : Inv s) (hnmem : n ∈ s.nodes) (hnid : n.id = node_id) :
    Inv (failedState node_id n s) := by
  obtain ⟨hids, hcount, hup⟩ := h
  refine ⟨?_, ?_, ?_⟩
  · show ((s.nodes.map (failApply node_id (isLeaderNode n))).map Node.id).Nodup
    rw [map_id_pres (failApply_id node_id (isLeaderNode n))]
    exact hids
  · show (s.nodes.map (failApply node_id (isLeaderNode n))).countP isLeaderNode ≤ 1
    refine le_trans (countP_map_le s.nodes ?_) hcount
    intro m hm hlead
    exact failApply_leader_imp hlead
  · intro m' hm' hlead
    obtain ⟨m, hm, rfl⟩ := List.mem_map.1 hm'
    by_cases hid : (m.id == node_id) = true
    · exfalso
      have hmn : m = n := node_id_inj hids hm hnmem (by simpa [hnid] using hid)
      subst hmn
      unfold failApply at hlead
      rw [if_pos hid] at hlead
      cases hml : isLeaderNode m with
      | true => simp [hml, isLeaderNode] at hlead
      | false =>
        simp only [hml, if_false, Bool.false_eq_true] at hlead
        simp only [isLeaderNode] at hlead hml
        rw [hml] at hlead
        cases hlead
    · have heq : failApply node_id (isLeaderNode n) m = m := by
        unfold failApply
        rw [if_neg hid]
      rw [heq] at hlead ⊢
      exact hup m hm hlead

theorem fail_inv (nid : String) (s : ClusterState) (h : Inv s) : Inv (failNode nid s).1 := by
  unfold failNode
  cases hfind : s.nodes.find? (fun n => n.id == nid) with
  | none => exact h
  | some n =>
    dsimp only
    have hnmem : n ∈ s.nodes := List.mem_of_find?_eq_some hfind
    have hnid : n.id = nid := by
      have := List.find?_some hfind
      simpa using this
    by_cases hdown : (n.status == Status.DOWN) = true
    · rw [if_pos hdown]
      exact h
    · rw [if_neg hdown]
      by_cases hl : (isLeaderNode n) = true
      · rw [if_pos hl]
        exact elect_inv _ (failedState_inv h hnmem hnid)
      · rw [if_neg hl]
        exact failedState_inv h hnmem hnid

theorem initial_inv (roster : List String) (hroster : roster.Nodup) :
    Inv (initialState roster) := by
  refine ⟨?_, ?_, ?_⟩
  · show ((roster.map freshNode).map Node.id).Nodup
    have hcomp : (roster.map freshNode).map Node.id = roster := by
      rw [List.map_map]
      have hfun : (Node.id ∘ freshNode) = fun i => i := rfl
      rw [hfun, List.map_id']
    rw [hcomp]
    exact hroster
  · show (roster.map freshNode).countP isLeaderNode ≤ 1
    have hz : (roster.map freshNode).countP isLeaderNode = 0 := by
      refine List.countP_eq_zero.2 ?_
      intro a ha
      obtain ⟨i, hi, rfl⟩ := List.mem_map.1 ha
      simp [isLeaderNode, freshNode]
    omega
  · intro m hm hlead
    obtain ⟨i, hi, rfl⟩ := List.mem_map.1 hm
    simp [isLeaderNode, freshNode] at hlead

theorem addCandidate_nodes (name : String) (s : ClusterState) :
    (addCandidate name s).1.nodes = s.nodes := by
  unfold addCandidate
  split <;> rfl

theorem castVote_nodes (v c : String) (s : ClusterState) :
    (castVote v c s).1.nodes = s.nodes := by
  unfold castVote
  split
  · rfl
  · split <;> rfl

theorem addCandidate_term (name : String) (s : ClusterState) :
    (addCandidate name s).1.term = s.term := by
  unfold addCandidate
  split <;> rfl

theorem castVote_term (v c : String) (s : ClusterState) :
    (castVote v c s).1.term = s.term := by
  unfold castVote
  split
  · rfl
  · split <;> rfl

theorem step_inv (roster : List String) (hroster : roster.Nodup) (c : Command)
    (s : ClusterState) (h : Inv s) : Inv (stepState roster c s) := by
  cases c with
  | initializeOp => exact elect_inv _ (initial_inv roster hroster)
  | addCandidate name => exact Inv_of_nodes_eq (addCandidate_nodes name s) h
  | castVote v c => exact Inv_of_nodes_eq (castVote_nodes v c s) h
  | failNode nid => exact fail_inv nid s h
  | getState => exact h

theorem run_inv (roster : List String) (hroster : roster.Nodup) (cmds : List Command)
    (s : ClusterState) (h : Inv s) : Inv (run roster cmds s) := by
  induction cmds generalizing s with
  | nil => exact h
  | cons c cs ih => exact ih _ (step_inv roster hroster c s h)

theorem emptyState_inv : Inv emptyState := by
  refine ⟨?_, ?_, ?_⟩
  · show (([] : List Node).map Node.id).Nodup
    simp
  · show ([] : List Node).countP isLeaderNode ≤ 1
    simp
  · intro n hn
    simp [emptyState] at hn

end Core

end EVoting

/-! ## Claim theorems -/

namespace EVoting

/-- C9: appendLog and updateUI are total on missing data — with a missing
log array appendLog appends nothing, and with a missing state updateUI
changes nothing; both return early instead of failing. -/
theorem client_missing_data_total (dom : Client.DOM) :
    Client.appendLog none dom = dom ∧ Client.updateUI none dom = dom :=
  ⟨rfl, rfl⟩

/-- C3: after page load the client runs initialize exactly once, and the
timer firing every 15000 milliseconds repeats only the read-only get-state
request, which is none of the four mutating endpoints. -/
theorem onload_polls_read_only :
    Client.windowOnload.immediate = [Client.initializeRequest] ∧
    Client.windowOnload.intervalMs = 15000 ∧
    Client.windowOnload.periodic = Client.getStateRequest ∧
    Client.windowOnload.periodic.endpoint = "/api/get-state" ∧
    Client.windowOnload.periodic.method = "GET" ∧
    Client.isMutatingRequest Client.windowOnload.periodic = false := by
  refine ⟨rfl, rfl, rfl, rfl, rfl, ?_⟩
  decide

/-- C7: getSnapshot is pure and idempotent — it leaves the state unchanged
(both directly and through the command boundary) and two snapshots with no
intervening mutation are identical. -/
theorem get_snapshot_pure (roster : List String) (s : Core.ClusterState) :
    (Core.getSnapshot s).1 = s ∧
    (Core.handle roster Core.Command.getState s).1 = s ∧
    (Core.getSnapshot (Core.getSnapshot s).1).2 = (Core.getSnapshot s).2 :=
  ⟨rfl, rfl, rfl⟩

/-- C10: the client sends a mutating request only on nonempty input —
addCandidate posts if and only if the name field is nonempty (clearing the
field after sending), and castVote posts if and only if the voter id field
is nonempty. -/
theorem client_input_guards (nameField voterField candidateName : String) :
    (nameField = "" → Client.addCandidateClick nameField = (none, nameField)) ∧
    (nameField ≠ "" →
      Client.addCandidateClick nameField =
        (some { endpoint := "/api/add-candidate", method := "POST",
                body := some (Client.Body.nameBody nameField) }, "")) ∧
    (voterField = "" → Client.castVoteClick voterField candidateName = none) ∧
    (voterField ≠ "" →
      Client.castVoteClick voterField candidateName =
        some { endpoint := "/api/vote", method := "POST",
               body := some (Client.Body.voteBody voterField candidateName) }) := by
  refine ⟨?_, ?_, ?_, ?_⟩
  · intro h
    unfold Client.addCandidateClick
    rw [if_neg (by simp [h])]
  · intro h
    unfold Client.addCandidateClick
    rw [if_pos h]
  · intro h
    unfold Client.castVoteClick
    rw [if_pos h]
  · intro h
    unfold Client.castVoteClick
    rw [if_neg h]

/-- Witness for C10 at concrete field contents. -/
theorem client_input_guards_witness :
    Client.addCandidateClick "" = (none, "") ∧
    Client.castVoteClick "" "Alice" = none ∧
    Client.addCandidateClick "Bob" =
      (some { endpoint := "/api/add-candidate", method := "POST",
              body := some (Client.Body.nameBody "Bob") }, "") ∧
    Client.castVoteClick "v1" "Alice" =
      some { endpoint := "/api/vote", method := "POST",
             body := some (Client.Body.voteBody "v1" "Alice") } :=
  ⟨(client_input_guards "" "" "Alice").1 rfl,
   (client_input_guards "" "" "Alice").2.2.1 rfl,
   (client_input_guards "Bob" "v1" "Alice").2.1 (by decide),
   (client_input_guards "Bob" "v1" "Alice").2.2.2 (by decide)⟩

/-- C8: on a failed request (rejected fetch or non-OK HTTP status) apiCall
appends exactly one API Error line after the request-trace line, leaves
the rendered candidate list and node status panel unchanged, and never
runs updateUI. -/
theorem apiCall_error_path (endpoint msg : String) (status : Nat)
    (fallbackState : SnapshotData) (dom : Client.DOM) :
    ((Client.apiCall endpoint (Client.FetchOutcome.rejected msg) fallbackState
        dom).calledUpdateUI = false ∧
      (Client.apiCall endpoint (Client.FetchOutcome.rejected msg) fallbackState
        dom).dom.candidatePanel = dom.candidatePanel ∧
      (Client.apiCall endpoint (Client.FetchOutcome.rejected msg) fallbackState
        dom).dom.statusPanel = dom.statusPanel ∧
      (Client.apiCall endpoint (Client.FetchOutcome.rejected msg) fallbackState
        dom).dom.logLines = dom.logLines ++ [Client.firingLine endpoint,
          Client.renderLogLine ("API Error: " ++ msg)]) ∧
    ((Client.apiCall endpoint (Client.FetchOutcome.httpError status) fallbackState
        dom).calledUpdateUI = false ∧
      (Client.apiCall endpoint (Client.FetchOutcome.httpError status) fallbackState
        dom).dom.candidatePanel = dom.candidatePanel ∧
      (Client.apiCall endpoint (Client.FetchOutcome.httpError status) fallbackState
        dom).dom.statusPanel = dom.statusPanel ∧
      (Client.apiCall endpoint (Client.FetchOutcome.httpError status) fallbackState
        dom).dom.logLines = dom.logLines ++ [Client.firingLine endpoint,
          Client.renderLogLine ("API Error: HTTP error! status: " ++ toString status)]) := by
  refine ⟨⟨rfl, rfl, rfl, ?_⟩, ⟨rfl, rfl, rfl, ?_⟩⟩ <;>
    simp [Client.apiCall, Client.appendLog]


/-- C2: every request the client emits targets one of the five interface
endpoints with its documented method and body shape, and each of the five
endpoints is emitted by some call site. -/
theorem client_exactly_five_endpoints :
    (∀ (call : Client.ClientCall) (r : Client.Request),
        Client.requestOf call = some r → Client.wellFormed r) ∧
    (∀ e ∈ ["/api/initialize", "/api/add-candidate", "/api/vote", "/api/fail-node",
        "/api/get-state"],
      ∃ (call : Client.ClientCall) (r : Client.Request),
        Client.requestOf call = some r ∧ r.endpoint = e) := by
  constructor
  · intro call r h
    cases call with
    | initializeSystem =>
      cases h
      exact Or.inl ⟨rfl, rfl, rfl⟩
    | addCandidate f =>
      simp only [Client.requestOf, Client.addCandidateClick] at h
      by_cases hf : f ≠ ""
      · rw [if_pos hf] at h
        cases h
        exact Or.inr (Or.inl ⟨rfl, rfl, f, rfl⟩)
      · rw [if_neg hf] at h
        cases h
    | castVote v c =>
      simp only [Client.requestOf, Client.castVoteClick] at h
      by_cases hv : v = ""
      · rw [if_pos hv] at h
        cases h
      · rw [if_neg hv] at h
        cases h
        exact Or.inr (Or.inr (Or.inl ⟨rfl, rfl, v, c, rfl⟩))
    | failNode nid =>
      cases h
      exact Or.inr (Or.inr (Or.inr (Or.inl ⟨rfl, rfl, nid, rfl⟩)))
    | poll =>
      cases h
      exact Or.inr (Or.inr (Or.inr (Or.inr ⟨rfl, rfl, rfl⟩)))
  · intro e he
    simp only [List.mem_cons, List.not_mem_nil, or_false] at he
    rcases he with rfl | rfl | rfl | rfl | rfl
    · exact ⟨Client.ClientCall.initializeSystem, Client.initializeRequest, rfl, rfl⟩
    · exact ⟨Client.ClientCall.addCandidate "x",
        { endpoint := "/api/add-candidate", method := "POST",
          body := some (Client.Body.nameBody "x") }, by decide, rfl⟩
    · exact ⟨Client.ClientCall.castVote "v" "c",
        { endpoint := "/api/vote", method := "POST",
          body := some (Client.Body.voteBody "v" "c") }, by decide, rfl⟩
    · exact ⟨Client.ClientCall.failNode "n", _, rfl, rfl⟩
    · exact ⟨Client.ClientCall.poll, _, rfl, rfl⟩

/-- Witness for C2 at a concrete call site. -/
theorem client_exactly_five_endpoints_witness :
    Client.wellFormed Client.initializeRequest :=
  client_exactly_five_endpoints.1 Client.ClientCall.initializeSystem
    Client.initializeRequest rfl

/-- C1: every mutating command responds with both a log and the resulting
snapshot, so apiCall handling such a response never takes the get-state
fallback fetch. -/
theorem mutating_response_complete (roster : List String) (c : Core.Command)
    (s : Core.ClusterState) (hmut : c.mutating = true)
    (endpoint : String) (fallbackState : SnapshotData) (dom : Client.DOM) :
    (Core.handle roster c s).2.log ≠ none ∧
    (Core.handle roster c s).2.state ≠ none ∧
    (Client.apiCall endpoint (Client.FetchOutcome.ok (Core.handle roster c s).2)
        fallbackState dom).usedFallback = false := by
  cases c with
  | initializeOp => refine ⟨?_, ?_, ?_⟩ <;> simp [Core.handle, Client.apiCall]
  | addCandidate name => refine ⟨?_, ?_, ?_⟩ <;> simp [Core.handle, Client.apiCall]
  | castVote v c => refine ⟨?_, ?_, ?_⟩ <;> simp [Core.handle, Client.apiCall]
  | failNode nid => refine ⟨?_, ?_, ?_⟩ <;> simp [Core.handle, Client.apiCall]
  | getState => simp [Core.Command.mutating] at hmut

/-- Witness for C1: the initialize command against the empty state. -/
theorem mutating_response_complete_witness :
    Core.Command.mutating Core.Command.initializeOp = true ∧
    ((Core.handle ["n1"] Core.Command.initializeOp Core.emptyState).2.log ≠ none ∧
     (Core.handle ["n1"] Core.Command.initializeOp Core.emptyState).2.state ≠ none ∧
     (Client.apiCall "/api/initialize"
        (Client.FetchOutcome.ok (Core.handle ["n1"] Core.Command.initializeOp
          Core.emptyState).2)
        (Core.snapshotData Core.emptyState) Client.emptyDom).usedFallback = false) :=
  ⟨rfl, mutating_response_complete ["n1"] Core.Command.initializeOp Core.emptyState rfl
    "/api/initialize" (Core.snapshotData Core.emptyState) Client.emptyDom⟩


/-- C4: in every state reachable from the uninitialized state by any
sequence of the five operations (for any duplicate-free roster), at most
one node is flagged leader in the resulting snapshot. -/
theorem at_most_one_leader (roster : List String) (hroster : roster.Nodup)
    (cmds : List Core.Command) :
    ((Core.snapshotData (Core.run roster cmds Core.emptyState)).nodes.countP
      fun p => p.2.is_leader) ≤ 1 := by
  obtain ⟨_, hcount, _⟩ :=
    Core.run_inv roster hroster cmds Core.emptyState Core.emptyState_inv
  unfold Core.snapshotData
  rw [List.countP_map]
  exact hcount

/-- Witness for C4: three nodes, initialize followed by failing each. -/
theorem at_most_one_leader_witness :
    ((Core.snapshotData (Core.run ["n1", "n2", "n3"]
        [Core.Command.initializeOp, Core.Command.failNode "n1",
         Core.Command.failNode "n2", Core.Command.failNode "n3"]
        Core.emptyState)).nodes.countP fun p => p.2.is_leader) ≤ 1 :=
  at_most_one_leader ["n1", "n2", "n3"] (by decide)
    [Core.Command.initializeOp, Core.Command.failNode "n1",
     Core.Command.failNode "n2", Core.Command.failNode "n3"]

/-- C5: a voter that already has a recorded vote is rejected with
DuplicateVoter when voting again for a registered candidate; the state is
unchanged, so the original vote is retained and no tally moves. -/
theorem duplicate_voter_rejected (s : Core.ClusterState) (voterId c2 c0 : String)
    (hreg : s.candidates.contains c2 = true)
    (hvoted : (voterId, c0) ∈ s.votes) :
    (Core.castVote voterId c2 s).1 = s ∧
    (Core.castVote voterId c2 s).2 = ["!! DuplicateVoter: " ++ voterId] ∧
    (voterId, c0) ∈ (Core.castVote voterId c2 s).1.votes ∧
    ∀ c, Core.tally (Core.castVote voterId c2 s).1 c = Core.tally s c := by
  have hdup : (s.votes.any fun v => v.1 == voterId) = true :=
    List.any_eq_true.2 ⟨(voterId, c0), hvoted, by simp⟩
  unfold Core.castVote
  rw [if_neg (not_not_intro hreg), if_pos hdup]
  exact ⟨rfl, rfl, hvoted, fun c => rfl⟩

/-- Witness for C5: v1 voted Alice, then votes Bob — rejected, Alice keeps
tally 1, Bob stays at 0. -/
theorem duplicate_voter_rejected_witness :
    Core.tally Core.voteScenario "Alice" = 1 ∧
    Core.tally Core.voteScenario "Bob" = 0 ∧
    ((Core.castVote "v1" "Bob" Core.voteScenario).1 = Core.voteScenario ∧
     (Core.castVote "v1" "Bob" Core.voteScenario).2 = ["!! DuplicateVoter: " ++ "v1"] ∧
     ("v1", "Alice") ∈ (Core.castVote "v1" "Bob" Core.voteScenario).1.votes ∧
     ∀ c, Core.tally (Core.castVote "v1" "Bob" Core.voteScenario).1 c =
       Core.tally Core.voteScenario c) :=
  ⟨by decide, by decide,
   duplicate_voter_rejected Core.voteScenario "v1" "Bob" "Alice" (by decide) (by decide)⟩

/-- C6: failing the leader while at least one other node is UP re-elects —
the new snapshot has a leader that is UP and distinct from the failed node,
and the cluster term strictly increases. -/
theorem fail_leader_reelects (s : Core.ClusterState) (L : Core.Node)
    (hInv : Core.Inv s) (hL : L ∈ s.nodes) (hlead : Core.isLeaderNode L = true)
    (hother : ∃ m ∈ s.nodes, m.status = Core.Status.UP ∧ m.id ≠ L.id) :
    (∃ n ∈ (Core.failNode L.id s).1.nodes,
        Core.isLeaderNode n = true ∧ n.status = Core.Status.UP ∧ n.id ≠ L.id) ∧
    s.term < (Core.failNode L.id s).1.term := by
  obtain ⟨hids, hcount, hup⟩ := hInv
  have hLup : L.status = Core.Status.UP := hup L hL hlead
  have hfind : s.nodes.find? (fun n => n.id == L.id) = some L := by
    cases hf : s.nodes.find? (fun n => n.id == L.id) with
    | none =>
      exfalso
      have := List.find?_eq_none.1 hf L hL
      simp at this
    | some x =>
      have hxmem := List.mem_of_find?_eq_some hf
      have hxid : x.id = L.id := by simpa using List.find?_some hf
      rw [Core.node_id_inj hids hxmem hL hxid]
  have hfail : (Core.failNode L.id s).1 =
      (Core.electIfNeeded (Core.failedState L.id L s)).1 := by
    unfold Core.failNode
    rw [hfind]
    dsimp only
    rw [if_neg (by simp [hLup]), if_pos hlead]
  have hT : (Core.failedState L.id L s).term = s.term := rfl
  have hnoUPlead : ((Core.failedState L.id L s).nodes.any
      fun n => n.status == Core.Status.UP && Core.isLeaderNode n) = false := by
    rw [List.any_eq_false]
    intro m' hm'
    obtain ⟨m, hm, heqw⟩ := List.mem_map.1 hm'
    subst heqw
    by_cases hid : (m.id == L.id) = true
    · unfold Core.failApply
      rw [if_pos hid]
      simp
    · have heq : Core.failApply L.id (Core.isLeaderNode L) m = m := by
        unfold Core.failApply
        rw [if_neg hid]
      rw [heq]
      have hmne : m ≠ L := fun h => by
        rw [h] at hid
        simp at hid
      simp [Core.unique_leader hcount hL hlead hm hmne]
  obtain ⟨m0, hm0, hm0up, hm0id⟩ := hother
  have hm0eq : Core.failApply L.id (Core.isLeaderNode L) m0 = m0 := by
    unfold Core.failApply
    rw [if_neg (by simp [hm0id])]
  have hm0T : m0 ∈ (Core.failedState L.id L s).nodes := by
    rw [← hm0eq]
    exact List.mem_map_of_mem _ hm0
  have hfilterne : (Core.failedState L.id L s).nodes.filter
      (fun n => n.status == Core.Status.UP) ≠ [] := by
    intro hempty
    have hmem : m0 ∈ (Core.failedState L.id L s).nodes.filter
        (fun n => n.status == Core.Status.UP) :=
      List.mem_filter.2 ⟨hm0T, by simp [hm0up]⟩
    rw [hempty] at hmem
    cases hmem
  obtain ⟨w, hsel⟩ := Core.selectLeader_isSome _ hfilterne
  have hwfilter : w ∈ (Core.failedState L.id L s).nodes.filter
      (fun n => n.status == Core.Status.UP) := Core.selectLeader_mem _ _ hsel
  have hwT : w ∈ (Core.failedState L.id L s).nodes := (List.mem_filter.1 hwfilter).1
  have hwup : w.status = Core.Status.UP := by
    simpa using (List.mem_filter.1 hwfilter).2
  have hwid : w.id ≠ L.id := by
    obtain ⟨m, hm, heqw⟩ := List.mem_map.1 hwT
    subst heqw
    by_cases hid : (m.id == L.id) = true
    · exfalso
      unfold Core.failApply at hwup
      rw [if_pos hid] at hwup
      simp at hwup
    · have heq : Core.failApply L.id (Core.isLeaderNode L) m = m := by
        unfold Core.failApply
        rw [if_neg hid]
      rw [heq]
      simpa using hid
  have helect : (Core.electIfNeeded (Core.failedState L.id L s)).1 =
      { Core.failedState L.id L s with
        term := (Core.failedState L.id L s).term + 1
        nodes := (Core.failedState L.id L s).nodes.map
          (Core.electApply w ((Core.failedState L.id L s).term + 1)) } := by
    unfold Core.electIfNeeded
    rw [if_neg (by simp [hnoUPlead]), hsel]
  rw [hfail, helect]
  constructor
  · refine ⟨Core.electApply w ((Core.failedState L.id L s).term + 1) w,
      List.mem_map_of_mem _ hwT, ?_, ?_, ?_⟩
    · unfold Core.electApply
      rw [if_pos (by simp)]
      rfl
    · unfold Core.electApply
      rw [if_pos (by simp)]
      exact hwup
    · rw [Core.electApply_id]
      exact hwid
  · rw [hT]
    exact Nat.lt_succ_self s.term

/-- Witness for C6: fail node a, the leader of the two-node scenario. -/
theorem fail_leader_reelects_witness :
    (∃ n ∈ (Core.failNode "a" Core.twoNodeScenario).1.nodes,
        Core.isLeaderNode n = true ∧ n.status = Core.Status.UP ∧ n.id ≠ "a") ∧
    Core.twoNodeScenario.term < (Core.failNode "a" Core.twoNodeScenario).1.term :=
  fail_leader_reelects Core.twoNodeScenario
    ⟨"a", Core.Status.UP, some Core.Role.LEADER, 1⟩
    (by unfold Core.Inv; decide) (by decide) (by decide) (by decide)

end EVoting
